import Mathlib

/-!
Verification of the redis client module of django-cacheops
(src/cacheops/redis.py): the get-or-lock stampede protocol, the
release-and-notify script, the degrade-on-failure guards, the replica
read proxy and the lazy connection holder.

The backend store is modelled as association lists of string keys:
string-valued keys (with optional TTL) and list-valued keys (the signal
queues, with optional TTL).  Backend calls that may fail are modelled as
Except values over the redis exception classes that appear in the module.
-/

namespace Cacheops

/-- State of the redis backend: string keys mapping to a value and an
optional TTL, and list keys mapping to a list of elements and an optional
TTL.  Association lists; a lookup reads the first matching entry. -/
structure RedisState where
  strings : List (String × String × Option Nat)
  lists   : List (String × List Nat × Option Nat)
deriving DecidableEq

/-- GET key: the stored string value, none when absent. -/
def rget (st : RedisState) (k : String) : Option String :=
  (st.strings.find? (fun e => e.1 == k)).map (fun e => e.2.1)

/-- TTL of a string key, none when absent or persistent. -/
def strTtl (st : RedisState) (k : String) : Option Nat :=
  (st.strings.find? (fun e => e.1 == k)).bind (fun e => e.2.2)

/-- Whether a list key exists. -/
def hasListKey (st : RedisState) (k : String) : Bool :=
  (st.lists.find? (fun e => e.1 == k)).isSome

/-- The elements of a list key, empty when absent. -/
def getList (st : RedisState) (k : String) : List Nat :=
  ((st.lists.find? (fun e => e.1 == k)).map (fun e => e.2.1)).getD []

/-- TTL of a list key, none when absent or persistent. -/
def listTtl (st : RedisState) (k : String) : Option Nat :=
  (st.lists.find? (fun e => e.1 == k)).bind (fun e => e.2.2)

/-- DEL key: removes the key whatever its type. -/
def rdel (st : RedisState) (k : String) : RedisState :=
  { strings := st.strings.filter (fun e => e.1 != k),
    lists := st.lists.filter (fun e => e.1 != k) }

/-- SET key v NX EX ex: store v with expiry ex only when the key does not
exist; the boolean reports whether the set happened. -/
def setNxEx (st : RedisState) (k v : String) (ex : Nat) : RedisState × Bool :=
  if (rget st k).isSome then (st, false)
  else ({ st with strings := (k, v, some ex) :: st.strings }, true)

/-- Replace the contents and TTL of a list key. -/
def setList (st : RedisState) (k : String) (l : List Nat) (ttl : Option Nat) :
    RedisState :=
  { st with lists := (k, l, ttl) :: st.lists.filter (fun e => e.1 != k) }

/-- LPUSH of a single element; the TTL of the key is kept. -/
def lpush (st : RedisState) (k : String) (v : Nat) : RedisState :=
  setList st k (v :: getList st k) (listTtl st k)

/-- EXPIRE on a list key; a no-op when the key is absent. -/
def listExpire (st : RedisState) (k : String) (t : Nat) : RedisState :=
  if hasListKey st k then setList st k (getList st k) (some t) else st

/-- BRPOPLPUSH src dst timeout: pop the tail element of src and push it
onto the head of dst; with an empty src the call waits out the timeout and
leaves the state unchanged, returning none. -/
def brpoplpush (st : RedisState) (src dst : String) (_timeout : Nat) :
    RedisState × Option Nat :=
  match (getList st src).getLast? with
  | none => (st, none)
  | some x =>
      let st1 := setList st src (getList st src).dropLast (listTtl st src)
      (setList st1 dst (x :: getList st1 dst) (listTtl st1 dst), some x)

/-- LOCK_TIMEOUT of redis.py. -/
def LOCK_TIMEOUT : Nat := 60

/-- The acquire script registered by CacheopsRedis, from its Lua source:
set KEYS(1) to LOCK with NX and EX ARGV(1); when that set happened, also
del KEYS(2); return whether the set happened. -/
def lockScript (st : RedisState) (key sigKey : String) (ex : Nat) :
    RedisState × Bool :=
  match setNxEx st key "LOCK" ex with
  | (st1, true) => (rdel st1 sigKey, true)
  | (st1, false) => (st1, false)

/-- The release script registered by CacheopsRedis, from its Lua source:
when GET KEYS(1) equals LOCK, del KEYS(1); then lpush 1 onto KEYS(2) and
expire KEYS(2) after 1. -/
def unlockScript (st : RedisState) (key sigKey : String) : RedisState :=
  let st1 := if rget st key = some "LOCK" then rdel st key else st
  let st2 := lpush st1 sigKey 1
  listExpire st2 sigKey 1

/-- The signal key derived from a cache key, as in both methods:
signal_key = key + ":signal". -/
def signalKey (key : String) : String := key ++ ":signal"

/-- The acquire call of the loop body:
self.lock with keys = (key, signal_key) and args = (LOCK_TIMEOUT). -/
def acquire (st : RedisState) (key : String) : RedisState × Bool :=
  lockScript st key (signalKey key) LOCK_TIMEOUT

/-- CacheopsRedis release of a lock: run the release script on
(key, signal_key). -/
def release_lock (st : RedisState) (key : String) : RedisState :=
  unlockScript st key (signalKey key)

/-- Outcome of one iteration of the loop in CacheopsRedis get-or-lock:
either the method returns (data, state), or it is about to block on the
given signal key with the given timeout and retry. -/
inductive StepOut
  | done (data : Option String) (st : RedisState)
  | wait (st : RedisState) (sigKey : String) (timeout : Nat)
deriving DecidableEq

/-- One iteration of the loop of CacheopsRedis get-or-lock: read the key;
on a missing value run the acquire script and return none (owner) when it
succeeded; on a value other than LOCK return it; otherwise fall through to
the blocking wait.  afterGet is interference by other clients between the
read and the acquire script, which makes losing the race to the lock
representable. -/
def getOrLockStep (key : String) (afterGet : RedisState → RedisState)
    (st : RedisState) : StepOut :=
  match rget st key with
  | none =>
      match lockScript (afterGet st) key (signalKey key) LOCK_TIMEOUT with
      | (st1, true) => StepOut.done none st1
      | (st1, false) => StepOut.wait st1 (signalKey key) LOCK_TIMEOUT
  | some data =>
      if data ≠ "LOCK" then StepOut.done (some data) st
      else StepOut.wait st (signalKey key) LOCK_TIMEOUT

/-- The loop of CacheopsRedis get-or-lock.  Each element of env supplies
the interference for one iteration: between the read and the acquire
script, and while blocked in brpoplpush.  The blocking wait is the
brpoplpush of the signal key onto itself with timeout LOCK_TIMEOUT, as in
the source; none means the environment list (the fuel) ran out while the
loop was still retrying. -/
def getOrLock (key : String)
    (env : List ((RedisState → RedisState) × (RedisState → RedisState)))
    (st : RedisState) : Option (Option String × RedisState) :=
  match env with
  | [] => none
  | (ag, dw) :: rest =>
      match getOrLockStep key ag st with
      | StepOut.done d stOut => some (d, stOut)
      | StepOut.wait stW sig t =>
          getOrLock key rest (dw (brpoplpush stW sig sig t).1)

/-- The redis exception classes the module handles: ConnectionError,
TimeoutError, the DegradedClientError it defines, and any other
RedisError (protocol and similar backend-reported errors). -/
inductive RErr
  | connection
  | timeout
  | degradedClient
  | protocolErr
deriving DecidableEq

/-- Diagnostics the module emits: the two RuntimeWarning calls of
handle_connection_failure, its logger call on other redis errors, and the
two logger calls of the replica proxy. -/
inductive Diag
  | warnUnreachable
  | warnTimeout
  | logError
  | logReplicaTimeout
  | logReplicaError
deriving DecidableEq

/-- The decorator handle_connection_failure as defined when
CACHEOPS_DEGRADE_ON_FAILURE is set: return the result of the call; on
ConnectionError warn and fall off (returning none); on TimeoutError warn
and fall off; on any other RedisError log it and fall off. -/
def handle_connection_failure_degrade {α : Type}
    (call : Except RErr (Option α)) : Except RErr (Option α) × List Diag :=
  match call with
  | Except.ok a => (Except.ok a, [])
  | Except.error RErr.connection => (Except.ok none, [Diag.warnUnreachable])
  | Except.error RErr.timeout => (Except.ok none, [Diag.warnTimeout])
  | Except.error _ => (Except.ok none, [Diag.logError])

/-- handle_connection_failure as bound at module level: the degrading
decorator when CACHEOPS_DEGRADE_ON_FAILURE is set, the identity
otherwise. -/
def handle_connection_failure {α : Type} (degradeOnFailure : Bool)
    (call : Except RErr (Option α)) : Except RErr (Option α) × List Diag :=
  if degradeOnFailure then handle_connection_failure_degrade call
  else (call, [])

/-- Result of one call through degrade_client_decorator: the outcome, the
degraded client set afterwards, and whether the wrapped operation body was
executed at all. -/
structure GuardedCall (α : Type) where
  result : Except RErr α
  degradedSet : List Nat
  attempted : Bool

/-- degrade_client_decorator: when the calling client is in the degraded
set, raise DegradedClientError without executing the call; otherwise run
the call, and on ConnectionError or TimeoutError add the client to the set
and re-raise.  Clients are identified by a number. -/
def degrade_client_call {α : Type} (s : List Nat) (conn : Nat)
    (call : Except RErr α) : GuardedCall α :=
  if conn ∈ s then ⟨Except.error RErr.degradedClient, s, false⟩
  else
    match call with
    | Except.error RErr.connection =>
        ⟨Except.error RErr.connection, conn :: s, true⟩
    | Except.error RErr.timeout =>
        ⟨Except.error RErr.timeout, conn :: s, true⟩
    | r => ⟨r, s, true⟩

/-- clear_degraded_client_marks: the receiver of request_started and
request_finished empties the degraded client set. -/
def clear_degraded_client_marks (_s : List Nat) : List Nat := []

/-- Result of SafeRedis get: the outcome and diagnostics of the outer
handle_connection_failure, plus the degraded set and the attempted flag of
the inner degrade_client_decorator. -/
structure SafeGetResult (α : Type) where
  result : Except RErr (Option α)
  diags : List Diag
  degradedSet : List Nat
  attempted : Bool

/-- SafeRedis.get = handle_connection_failure applied over
degrade_client_decorator applied over StrictRedis.get; SafeRedis exists
only in the degrade-on-failure configuration, so the outer wrapper is the
degrading decorator. -/
def SafeRedis_get {α : Type} (s : List Nat) (conn : Nat)
    (call : Except RErr (Option α)) : SafeGetResult α :=
  let g := degrade_client_call s conn call
  let h := handle_connection_failure_degrade g.result
  ⟨h.1, h.2, g.degradedSet, g.attempted⟩

/-- SafeRedis.evalsha = degrade_client_decorator applied over
StrictRedis.evalsha, with no connection-failure wrapper. -/
def SafeRedis_evalsha {α : Type} (s : List Nat) (conn : Nat)
    (call : Except RErr α) : GuardedCall α :=
  degrade_client_call s conn call

/-- Observable outcome of the getting context manager with lock=True:
what was yielded to the with-block (none when get-or-lock raised before
the yield), the value of the local locked flag, whether the release was
invoked in the finally clause, and whether an exception leaves the
block. -/
structure GettingOutcome where
  yielded : Option (Option String)
  locked : Bool
  releaseInvoked : Bool
  raised : Bool
deriving DecidableEq

/-- The lock=True branch of CacheopsRedis.getting as a function of the
observed result of the (decorated) get-or-lock call and of whether the
body of the with-block raises: locked starts false; data is read, locked
is set to whether data is none, data is yielded; in the finally clause the
release runs exactly when locked is set. -/
def getting_lock (golResult : Except RErr (Option String)) (bodyRaises : Bool) :
    GettingOutcome :=
  match golResult with
  | Except.error _ => ⟨none, false, false, true⟩
  | Except.ok data => ⟨some data, data.isNone, data.isNone, bodyRaises⟩

/-- Outcome of ReplicaProxyRedis get: the value returned, the diagnostics
emitted at this layer, and whether the primary get was invoked. -/
structure ReplicaGetOutcome (α : Type) where
  result : Except RErr (Option α)
  diags : List Diag
  primaryInvoked : Bool

/-- ReplicaProxyRedis.get: try the replica get; on TimeoutError log and
fall through to the primary get; on ConnectionError fall through silently;
on any other RedisError log it and fall through; on success return the
replica value without touching the primary. -/
def ReplicaProxyRedis_get {α : Type} (replica primary : Except RErr (Option α)) :
    ReplicaGetOutcome α :=
  match replica with
  | Except.ok v => ⟨Except.ok v, [], false⟩
  | Except.error RErr.timeout => ⟨primary, [Diag.logReplicaTimeout], true⟩
  | Except.error RErr.connection => ⟨primary, [], true⟩
  | Except.error _ => ⟨primary, [Diag.logReplicaError], true⟩

/-- The CACHEOPS_REDIS setting as LazyRedis reads it: either a string
(a connection URL) or a mapping of connection parameters. -/
inductive RedisConfSetting
  | str (s : String)
  | mapping (params : List (String × String))
deriving DecidableEq

/-- Python falsiness of the setting, as tested by the guard of
LazyRedis setup: an empty string or an empty mapping is falsy. -/
def confIsFalsy : RedisConfSetting → Bool
  | RedisConfSetting.str s => s == ""
  | RedisConfSetting.mapping m => m.isEmpty

/-- The names bound at module level in src/cacheops/redis.py by its import
statements and its definitions above LazyRedis, transcribed from the
source.  Name resolution inside LazyRedis setup is against this list. -/
def redisModuleNames : List String :=
  ["absolute_import", "warnings", "contextmanager", "six", "getLogger",
   "request_started", "request_finished", "receiver", "decorator",
   "identity", "memoize", "redis", "settings", "logger",
   "handle_connection_failure", "degraded_client_set",
   "DegradedClientError", "degrade_client_decorator",
   "clear_degraded_client_marks", "LOCK_TIMEOUT", "CacheopsRedis",
   "SafeRedis", "Redis", "LazyRedis"]

/-- Outcome of LazyRedis setup: a NameError on an unresolvable name, an
ImproperlyConfigured error with its message, or a client built from a URL
or from keyword parameters. -/
inductive SetupOutcome
  | nameError (missing : String)
  | improperlyConfigured (msg : String)
  | clientFromUrl (url : String)
  | clientFromParams (params : List (String × String))
deriving DecidableEq

/-- LazyRedis setup: when the CACHEOPS_REDIS setting is falsy it executes
raise ImproperlyConfigured(...), which in Python first resolves the name
ImproperlyConfigured in the module namespace, raising NameError when it is
not bound there; with a string setting it builds the client through
from_url, and with a mapping through keyword parameters. -/
def LazyRedis_setup (conf : RedisConfSetting) : SetupOutcome :=
  if confIsFalsy conf then
    if redisModuleNames.contains "ImproperlyConfigured" then
      SetupOutcome.improperlyConfigured
        "You must specify CACHEOPS_REDIS setting to use cacheops"
    else SetupOutcome.nameError "ImproperlyConfigured"
  else
    match conf with
    | RedisConfSetting.str s => SetupOutcome.clientFromUrl s
    | RedisConfSetting.mapping m => SetupOutcome.clientFromParams m

/-- A state with a plain value stored at k, for concrete checks. -/
def stHit : RedisState := ⟨[("k", "v", none)], []⟩

/-- The empty backend state. -/
def stEmpty : RedisState := ⟨[], []⟩

/-- A state where k holds the lock sentinel. -/
def stLocked : RedisState := ⟨[("k", "LOCK", some 60)], []⟩

/-! Lemmas about the association-list store. -/

/-- Filtering out a key makes a search for that key fail. -/
theorem find_filter_self {γ : Type} (k : String) (l : List (String × γ)) :
    (l.filter (fun e => e.1 != k)).find? (fun e => e.1 == k) = none := by
  induction l with
  | nil => rfl
  | cons a t ih =>
      by_cases h : a.1 = k
      · simp [List.filter_cons, h, ih]
      · simp [List.filter_cons, List.find?_cons, h, ih]

/-- Filtering out one key does not change the search for another. -/
theorem find_filter_ne {γ : Type} (k k2 : String) (hk : k2 ≠ k)
    (l : List (String × γ)) :
    (l.filter (fun e => e.1 != k)).find? (fun e => e.1 == k2) =
      l.find? (fun e => e.1 == k2) := by
  induction l with
  | nil => rfl
  | cons a t ih =>
      have hk2 : k ≠ k2 := fun hh => hk hh.symm
      by_cases h : a.1 = k
      · have h2 : a.1 ≠ k2 := by rw [h]; exact hk2
        simp [List.filter_cons, List.find?_cons, h, h2, hk, hk2, ih]
      · by_cases h2 : a.1 = k2 <;>
          simp [List.filter_cons, List.find?_cons, h, h2, hk, hk2, ih]

theorem rget_rdel_self (st : RedisState) (k : String) :
    rget (rdel st k) k = none := by
  simp [rget, rdel, find_filter_self]

theorem rget_rdel_ne (st : RedisState) (k k2 : String) (h : k2 ≠ k) :
    rget (rdel st k) k2 = rget st k2 := by
  simp [rget, rdel, find_filter_ne k k2 h]

theorem strTtl_rdel_ne (st : RedisState) (k k2 : String) (h : k2 ≠ k) :
    strTtl (rdel st k) k2 = strTtl st k2 := by
  simp [strTtl, rdel, find_filter_ne k k2 h]

theorem getList_rdel_ne (st : RedisState) (k k2 : String) (h : k2 ≠ k) :
    getList (rdel st k) k2 = getList st k2 := by
  simp [getList, rdel, find_filter_ne k k2 h]

theorem hasListKey_rdel_self (st : RedisState) (k : String) :
    hasListKey (rdel st k) k = false := by
  simp [hasListKey, rdel, find_filter_self]

theorem rget_mk_cons (k v : String) (t : Option Nat)
    (l : List (String × String × Option Nat))
    (ls : List (String × List Nat × Option Nat)) :
    rget ⟨(k, v, t) :: l, ls⟩ k = some v := by
  simp [rget, List.find?_cons]

theorem strTtl_mk_cons (k v : String) (t : Option Nat)
    (l : List (String × String × Option Nat))
    (ls : List (String × List Nat × Option Nat)) :
    strTtl ⟨(k, v, t) :: l, ls⟩ k = t := by
  simp [strTtl, List.find?_cons]

theorem rget_setList (st : RedisState) (k : String) (l : List Nat)
    (t : Option Nat) (k2 : String) :
    rget (setList st k l t) k2 = rget st k2 := rfl

theorem getList_setList_self (st : RedisState) (k : String) (l : List Nat)
    (t : Option Nat) :
    getList (setList st k l t) k = l := by
  simp [getList, setList, List.find?_cons]

theorem listTtl_setList_self (st : RedisState) (k : String) (l : List Nat)
    (t : Option Nat) :
    listTtl (setList st k l t) k = t := by
  simp [listTtl, setList, List.find?_cons]

theorem hasListKey_setList_self (st : RedisState) (k : String) (l : List Nat)
    (t : Option Nat) :
    hasListKey (setList st k l t) k = true := by
  simp [hasListKey, setList, List.find?_cons]

theorem rget_lpush (st : RedisState) (k : String) (v : Nat) (k2 : String) :
    rget (lpush st k v) k2 = rget st k2 := rfl

theorem getList_lpush_self (st : RedisState) (k : String) (v : Nat) :
    getList (lpush st k v) k = v :: getList st k := by
  simp [lpush, getList_setList_self]

theorem hasListKey_lpush_self (st : RedisState) (k : String) (v : Nat) :
    hasListKey (lpush st k v) k = true := by
  simp [lpush, hasListKey_setList_self]

theorem rget_listExpire (st : RedisState) (k : String) (t : Nat) (k2 : String) :
    rget (listExpire st k t) k2 = rget st k2 := by
  unfold listExpire; split <;> rfl

theorem getList_listExpire_self (st : RedisState) (k : String) (t : Nat) :
    getList (listExpire st k t) k = getList st k := by
  unfold listExpire
  split
  · exact getList_setList_self st k (getList st k) (some t)
  · rfl

theorem listTtl_listExpire_of_has (st : RedisState) (k : String) (t : Nat)
    (h : hasListKey st k = true) :
    listTtl (listExpire st k t) k = some t := by
  simp [listExpire, h, listTtl_setList_self]

/-- The signal key of a key is distinct from the key itself. -/
theorem signalKey_ne (key : String) : signalKey key ≠ key := by
  intro h
  have hlen := congrArg String.length h
  rw [signalKey, String.length_append] at hlen
  have h7 : (":signal" : String).length = 7 := rfl
  rw [h7] at hlen
  omega

/-- C2: for every key, the release runs the atomic script that deletes
the key exactly when the value stored at it is the lock sentinel, and in
every case pushes one notification onto the signal key and sets a
one-unit expiry on the signal key. -/
theorem release_lock_spec (st : RedisState) (key : String) :
    (rget st key = some "LOCK" → rget (release_lock st key) key = none) ∧
    (rget st key ≠ some "LOCK" →
      rget (release_lock st key) key = rget st key) ∧
    getList (release_lock st key) (signalKey key) =
      1 :: getList st (signalKey key) ∧
    listTtl (release_lock st key) (signalKey key) = some 1 := by
  have hne : signalKey key ≠ key := signalKey_ne key
  refine ⟨?_, ?_, ?_, ?_⟩
  · intro h
    simp only [release_lock, unlockScript, if_pos h]
    rw [rget_listExpire, rget_lpush, rget_rdel_self]
  · intro h
    simp only [release_lock, unlockScript, if_neg h]
    rw [rget_listExpire, rget_lpush]
  · simp only [release_lock, unlockScript]
    rw [getList_listExpire_self, getList_lpush_self]
    split
    · rw [getList_rdel_ne st key (signalKey key) hne]
    · rfl
  · simp only [release_lock, unlockScript]
    exact listTtl_listExpire_of_has _ _ _ (hasListKey_lpush_self _ _ _)

/-! Lemmas about the acquire script. -/

/-- The conditional set succeeds exactly when the key is absent. -/
theorem setNxEx_succeeds_iff (st : RedisState) (k v : String) (ex : Nat) :
    (setNxEx st k v ex).2 = true ↔ rget st k = none := by
  rcases hg : rget st k with _ | v2 <;> simp [setNxEx, hg]

/-- A failed conditional set leaves the state unchanged. -/
theorem setNxEx_fail_state (st : RedisState) (k v : String) (ex : Nat)
    (h : (setNxEx st k v ex).2 = false) : (setNxEx st k v ex).1 = st := by
  rcases hg : rget st k with _ | v2 <;> simp [setNxEx, hg] at h ⊢

/-- The acquire script reports success exactly when the set happened. -/
theorem lockScript_snd (st : RedisState) (k sig : String) (ex : Nat) :
    (lockScript st k sig ex).2 = (setNxEx st k "LOCK" ex).2 := by
  rcases hp : setNxEx st k "LOCK" ex with ⟨st1, b⟩
  cases b <;> simp [lockScript, hp]

/-- A failed acquire leaves the state unchanged. -/
theorem lockScript_fail_state (st : RedisState) (k sig : String) (ex : Nat)
    (h : (lockScript st k sig ex).2 = false) : (lockScript st k sig ex).1 = st := by
  rcases hp : setNxEx st k "LOCK" ex with ⟨st1, b⟩
  cases b <;> simp [lockScript, hp] at h ⊢
  have := setNxEx_fail_state st k "LOCK" ex (by rw [hp])
  rw [hp] at this
  exact this

/-- A successful acquire on an absent key yields exactly the state with
the sentinel stored under the key and the signal key deleted. -/
theorem lockScript_success_state (st : RedisState) (k sig : String) (ex : Nat)
    (h : rget st k = none) :
    lockScript st k sig ex =
      (rdel { st with strings := (k, "LOCK", some ex) :: st.strings } sig,
        true) := by
  simp [lockScript, setNxEx, h]

/-- C1: for every key, state and interference, one iteration of the
get-or-lock loop reads the key and (a) returns a present value that is
not the sentinel as a non-owner hit, and a returned value is never the
sentinel; (b) the acquire script succeeds exactly when the key is absent,
changes nothing on failure, and on success stores the sentinel under the
key with expiry LOCK_TIMEOUT = 60 and deletes the signal key, upon which
the method returns none, meaning the caller owns the lock; (c) otherwise
(the acquire lost the race, or the value equals the sentinel) the
iteration blocks on the signal key with the pop-and-requeue-to-self
primitive with timeout LOCK_TIMEOUT and the loop retries from the read
step on the resulting state. -/
theorem get_or_lock_spec (key : String) (st : RedisState)
    (ag : RedisState → RedisState) :
    LOCK_TIMEOUT = 60 ∧
    (∀ v, rget st key = some v → v ≠ "LOCK" →
      getOrLockStep key ag st = StepOut.done (some v) st) ∧
    (∀ v st1, getOrLockStep key ag st = StepOut.done (some v) st1 →
      v ≠ "LOCK" ∧ st1 = st) ∧
    ((acquire (ag st) key).2 = true ↔ rget (ag st) key = none) ∧
    ((acquire (ag st) key).2 = false → (acquire (ag st) key).1 = ag st) ∧
    ((acquire (ag st) key).2 = true →
      rget (acquire (ag st) key).1 key = some "LOCK" ∧
      strTtl (acquire (ag st) key).1 key = some LOCK_TIMEOUT ∧
      hasListKey (acquire (ag st) key).1 (signalKey key) = false) ∧
    (rget st key = none → (acquire (ag st) key).2 = true →
      getOrLockStep key ag st = StepOut.done none (acquire (ag st) key).1) ∧
    (rget st key = none → (acquire (ag st) key).2 = false →
      getOrLockStep key ag st =
        StepOut.wait (acquire (ag st) key).1 (signalKey key) LOCK_TIMEOUT) ∧
    (rget st key = some "LOCK" →
      getOrLockStep key ag st = StepOut.wait st (signalKey key) LOCK_TIMEOUT) ∧
    (∀ dw env stW sig t, getOrLockStep key ag st = StepOut.wait stW sig t →
      getOrLock key ((ag, dw) :: env) st =
        getOrLock key env (dw (brpoplpush stW sig sig t).1)) := by
  have hkeysig : key ≠ signalKey key := Ne.symm (signalKey_ne key)
  refine ⟨rfl, ?_, ?_, ?_, ?_, ?_, ?_, ?_, ?_, ?_⟩
  · intro v hv hne
    simp [getOrLockStep, hv, hne]
  · intro v st1 h
    unfold getOrLockStep at h
    split at h
    · split at h <;> simp at h
    · split at h
      · next data _ hne =>
          rw [StepOut.done.injEq] at h
          obtain ⟨h1, h2⟩ := h
          obtain rfl := Option.some.inj h1
          exact ⟨hne, h2.symm⟩
      · simp at h
  · simp only [acquire]
    rw [lockScript_snd]
    exact setNxEx_succeeds_iff (ag st) key "LOCK" LOCK_TIMEOUT
  · simp only [acquire]
    exact lockScript_fail_state (ag st) key (signalKey key) LOCK_TIMEOUT
  · intro hacq
    have hnone : rget (ag st) key = none := by
      rw [← setNxEx_succeeds_iff (ag st) key "LOCK" LOCK_TIMEOUT,
        ← lockScript_snd]
      exact hacq
    simp only [acquire] at hacq ⊢
    rw [lockScript_success_state (ag st) key (signalKey key) LOCK_TIMEOUT hnone]
    refine ⟨?_, ?_, ?_⟩
    · rw [rget_rdel_ne _ _ _ hkeysig]
      exact rget_mk_cons key "LOCK" (some LOCK_TIMEOUT) (ag st).strings
        (ag st).lists
    · rw [strTtl_rdel_ne _ _ _ hkeysig]
      exact strTtl_mk_cons key "LOCK" (some LOCK_TIMEOUT) (ag st).strings
        (ag st).lists
    · exact hasListKey_rdel_self _ _
  · intro h0 hacq
    simp only [acquire] at hacq ⊢
    rcases hp : lockScript (ag st) key (signalKey key) LOCK_TIMEOUT with ⟨stL, b⟩
    rw [hp] at hacq
    cases b
    · simp at hacq
    · simp [getOrLockStep, h0, hp]
  · intro h0 hacq
    simp only [acquire] at hacq ⊢
    rcases hp : lockScript (ag st) key (signalKey key) LOCK_TIMEOUT with ⟨stL, b⟩
    rw [hp] at hacq
    cases b
    · simp [getOrLockStep, h0, hp]
    · simp at hacq
  · intro h
    simp [getOrLockStep, h]
  · intro dw env stW sig t h
    simp [getOrLock, h]

/-- Witness for C1 at concrete inputs: a hit on a plain value, the owner
return on an empty store, the wait on a sentinel, and the loop retrying
after the blocking wait. -/
theorem get_or_lock_spec_witness :
    getOrLockStep "k" id stHit = StepOut.done (some "v") stHit ∧
    getOrLockStep "k" id stEmpty =
      StepOut.done none (acquire (id stEmpty) "k").1 ∧
    getOrLockStep "k" id stLocked =
      StepOut.wait stLocked (signalKey "k") LOCK_TIMEOUT ∧
    getOrLock "k" [(id, id)] stLocked =
      getOrLock "k" []
        (id (brpoplpush stLocked (signalKey "k") (signalKey "k")
          LOCK_TIMEOUT).1) :=
  ⟨(get_or_lock_spec "k" stHit id).2.1 "v" (by decide) (by decide),
   (get_or_lock_spec "k" stEmpty id).2.2.2.2.2.2.1 (by decide) (by decide),
   (get_or_lock_spec "k" stLocked id).2.2.2.2.2.2.2.2.1 (by decide),
   (get_or_lock_spec "k" stLocked id).2.2.2.2.2.2.2.2.2 id [] stLocked
     (signalKey "k") LOCK_TIMEOUT
     ((get_or_lock_spec "k" stLocked id).2.2.2.2.2.2.2.2.1 (by decide))⟩

/-- Witness for C2 at concrete inputs: the sentinel is deleted, a plain
value is kept, and the notification is pushed. -/
theorem release_lock_spec_witness :
    rget (release_lock stLocked "k") "k" = none ∧
    rget (release_lock stHit "k") "k" = rget stHit "k" ∧
    getList (release_lock stEmpty "k") (signalKey "k") =
      1 :: getList stEmpty (signalKey "k") :=
  ⟨(release_lock_spec stLocked "k").1 (by decide),
   (release_lock_spec stHit "k").2.1 (by decide),
   (release_lock_spec stEmpty "k").2.2.1⟩

/-- C3: in getting with lock=True, the release runs in the finally clause
exactly when the get-or-lock call returned none, on both the normal exit
and the body-raises exit; when it returned a value, or raised, the
release never runs. -/
theorem getting_release_iff (gol : Except RErr (Option String)) (b : Bool) :
    ((getting_lock gol b).releaseInvoked = true ↔ gol = Except.ok none) ∧
    (∀ v, gol = Except.ok (some v) →
      (getting_lock gol b).releaseInvoked = false) ∧
    (getting_lock (Except.ok none) b).raised = b ∧
    (getting_lock (Except.ok none) b).releaseInvoked = true ∧
    (getting_lock (Except.ok none) b).locked = true := by
  refine ⟨?_, ?_, rfl, rfl, rfl⟩
  · cases gol with
    | error e => simp [getting_lock]
    | ok data => cases data <;> simp [getting_lock]
  · intro v hv
    subst hv
    rfl

/-- Witness for C3: with a returned value the release does not run. -/
theorem getting_release_iff_witness :
    (getting_lock (Except.ok (some "v")) true).releaseInvoked = false :=
  (getting_release_iff (Except.ok (some "v")) true).2.1 "v" rfl

/-- C4: with degrade-on-failure enabled, a connection or timeout error
from a wrapped call becomes a none result and a RuntimeWarning is
emitted; with it disabled the wrapper is the identity and the same call
result, an error included, passes through unchanged. -/
theorem connection_failure_policy (α : Type) (call : Except RErr (Option α)) :
    handle_connection_failure true
      (Except.error RErr.connection : Except RErr (Option α)) =
      (Except.ok none, [Diag.warnUnreachable]) ∧
    handle_connection_failure true
      (Except.error RErr.timeout : Except RErr (Option α)) =
      (Except.ok none, [Diag.warnTimeout]) ∧
    handle_connection_failure false call = (call, []) :=
  ⟨rfl, rfl, rfl⟩

/-- C5: a first connection or timeout failure on a connection adds it to
the degraded set and re-raises; while the connection is in the set a
guarded call raises DegradedClientError without the operation being
attempted; the reset trigger clears the whole set, after which the next
call attempts the operation again. -/
theorem degrade_client_policy (α : Type) (s : List Nat) (conn : Nat)
    (call : Except RErr α) :
    (conn ∉ s →
      degrade_client_call s conn
        (Except.error RErr.connection : Except RErr α) =
        ⟨Except.error RErr.connection, conn :: s, true⟩) ∧
    (conn ∉ s →
      degrade_client_call s conn
        (Except.error RErr.timeout : Except RErr α) =
        ⟨Except.error RErr.timeout, conn :: s, true⟩) ∧
    (conn ∈ s →
      degrade_client_call s conn call =
        ⟨Except.error RErr.degradedClient, s, false⟩) ∧
    clear_degraded_client_marks s = [] ∧
    (degrade_client_call (clear_degraded_client_marks s) conn
      call).attempted = true := by
  refine ⟨?_, ?_, ?_, rfl, ?_⟩
  · intro h
    simp [degrade_client_call, h]
  · intro h
    simp [degrade_client_call, h]
  · intro h
    simp [degrade_client_call, h]
  · cases call with
    | ok a => simp [degrade_client_call, clear_degraded_client_marks]
    | error e =>
        cases e <;> simp [degrade_client_call, clear_degraded_client_marks]

/-- Witness for C5: a first failure marks the connection, a marked
connection short-circuits. -/
theorem degrade_client_policy_witness :
    degrade_client_call [] 0 (Except.error RErr.connection : Except RErr Nat) =
      ⟨Except.error RErr.connection, [0], true⟩ ∧
    degrade_client_call [0] 0 (Except.ok 5 : Except RErr Nat) =
      ⟨Except.error RErr.degradedClient, [0], false⟩ :=
  ⟨(degrade_client_policy Nat [] 0 (Except.ok 5)).1 (by decide),
   (degrade_client_policy Nat [0] 0 (Except.ok 5)).2.2.1 (by decide)⟩

/-- C6 counterexample: with degrade-on-failure enabled, a backend error
that is neither connectivity nor timeout is logged and converted into a
none result by handle_connection_failure; it does not propagate out of
the guard. -/
theorem protocol_error_swallowed :
    handle_connection_failure true
      (Except.error RErr.protocolErr : Except RErr (Option String)) =
      (Except.ok none, [Diag.logError]) ∧
    (handle_connection_failure true
      (Except.error RErr.protocolErr : Except RErr (Option String))).1 ≠
      Except.error RErr.protocolErr :=
  ⟨rfl, fun h => Except.noConfusion h⟩

/-- C6 amended: a backend error that is neither connectivity nor timeout
is, with degrade-on-failure enabled, logged and converted into a none
result; with it disabled it propagates unchanged to the caller, nothing
being logged. -/
theorem protocol_error_policy (α : Type) :
    handle_connection_failure true
      (Except.error RErr.protocolErr : Except RErr (Option α)) =
      (Except.ok none, [Diag.logError]) ∧
    handle_connection_failure false
      (Except.error RErr.protocolErr : Except RErr (Option α)) =
      (Except.error RErr.protocolErr, []) :=
  ⟨rfl, rfl⟩

/-- C7 counterexample: on a degraded connection, SafeRedis get does not
let DegradedClientError reach the caller: the outer connection-failure
guard logs it and the call returns a none result, the operation never
being attempted. -/
theorem degraded_error_lost_in_get :
    SafeRedis_get [0] 0 (Except.ok (some "v") : Except RErr (Option String)) =
      ⟨Except.ok none, [Diag.logError], [0], false⟩ := rfl

/-- C7 amended: the short-circuit DegradedClientError propagates out of
the operations wrapped only by the degrade decorator, such as SafeRedis
evalsha, and is a kind distinct from the connectivity, timeout and
generic backend errors; in SafeRedis get, however, the outer
connection-failure guard catches it as a RedisError, logs it and returns
a none result, the operation still never being attempted. -/
theorem degraded_short_circuit_policy (α : Type) (s : List Nat) (conn : Nat)
    (call : Except RErr α) (callg : Except RErr (Option α)) :
    (conn ∈ s →
      SafeRedis_evalsha s conn call =
        ⟨Except.error RErr.degradedClient, s, false⟩) ∧
    (conn ∈ s →
      SafeRedis_get s conn callg =
        ⟨Except.ok none, [Diag.logError], s, false⟩) ∧
    RErr.degradedClient ≠ RErr.connection ∧
    RErr.degradedClient ≠ RErr.timeout ∧
    RErr.degradedClient ≠ RErr.protocolErr := by
  refine ⟨?_, ?_, by decide, by decide, by decide⟩
  · intro h
    simp [SafeRedis_evalsha, degrade_client_call, h]
  · intro h
    simp [SafeRedis_get, degrade_client_call, h,
      handle_connection_failure_degrade]

/-- Witness for the amended C7: a degraded connection makes evalsha raise
the short-circuit error without the operation being attempted. -/
theorem degraded_short_circuit_policy_witness :
    SafeRedis_evalsha [1] 1 (Except.ok 7 : Except RErr Nat) =
      ⟨Except.error RErr.degradedClient, [1], false⟩ :=
  (degraded_short_circuit_policy Nat [1] 1 (Except.ok 7)
    (Except.ok none)).1 (by decide)

/-- C8: the replica-aware read tries the replica first: on success it
returns the replica value without invoking the primary; on a replica
timeout it logs and falls through to the primary; on a replica
connection error it falls through silently with no log; on any other
replica backend error it logs and falls through. -/
theorem replica_get_policy (α : Type) (v : Option α)
    (primary : Except RErr (Option α)) :
    ReplicaProxyRedis_get (Except.ok v) primary = ⟨Except.ok v, [], false⟩ ∧
    ReplicaProxyRedis_get (Except.error RErr.timeout) primary =
      ⟨primary, [Diag.logReplicaTimeout], true⟩ ∧
    ReplicaProxyRedis_get (Except.error RErr.connection) primary =
      ⟨primary, [], true⟩ ∧
    ReplicaProxyRedis_get (Except.error RErr.protocolErr) primary =
      ⟨primary, [Diag.logReplicaError], true⟩ ∧
    ReplicaProxyRedis_get (Except.error RErr.degradedClient) primary =
      ⟨primary, [Diag.logReplicaError], true⟩ :=
  ⟨rfl, rfl, rfl, rfl, rfl⟩

/-- C9: with an empty CACHEOPS_REDIS setting, LazyRedis setup fails by
raising through the name ImproperlyConfigured, which is unbound in the
module, hence a NameError rather than a configuration error; with a
non-empty string setting it builds the client from the URL, and with a
non-empty mapping from keyword parameters. -/
theorem lazy_setup_behavior :
    LazyRedis_setup (RedisConfSetting.mapping []) =
      SetupOutcome.nameError "ImproperlyConfigured" ∧
    LazyRedis_setup (RedisConfSetting.str "") =
      SetupOutcome.nameError "ImproperlyConfigured" ∧
    LazyRedis_setup (RedisConfSetting.str "redis://localhost:6379/1") =
      SetupOutcome.clientFromUrl "redis://localhost:6379/1" ∧
    LazyRedis_setup (RedisConfSetting.mapping [("host", "localhost")]) =
      SetupOutcome.clientFromParams [("host", "localhost")] := by
  refine ⟨?_, ?_, rfl, rfl⟩ <;> decide

/-- C10: with degrade-on-failure enabled, a connection or timeout error
inside the decorated get-or-lock is absorbed into a none result, the
value that also signals a won lock; getting with lock=True then treats
the caller as the owner, with the same yielded value and flags as after a
genuine acquire, and invokes the release in its finally clause although
no lock exists on the backend. -/
theorem degraded_get_or_lock_is_owner (b : Bool) :
    (handle_connection_failure true
      (Except.error RErr.connection : Except RErr (Option String))).1 =
      Except.ok none ∧
    (handle_connection_failure true
      (Except.error RErr.timeout : Except RErr (Option String))).1 =
      Except.ok none ∧
    getting_lock (handle_connection_failure true
      (Except.error RErr.connection : Except RErr (Option String))).1 b =
      getting_lock (Except.ok none) b ∧
    (getting_lock (handle_connection_failure true
      (Except.error RErr.connection : Except RErr (Option String))).1
      b).locked = true ∧
    (getting_lock (handle_connection_failure true
      (Except.error RErr.connection : Except RErr (Option String))).1
      b).releaseInvoked = true ∧
    (getting_lock (handle_connection_failure true
      (Except.error RErr.timeout : Except RErr (Option String))).1
      b).releaseInvoked = true :=
  ⟨rfl, rfl, rfl, rfl, rfl, rfl⟩

end Cacheops
